import Mathlib

/-!
Shallow embedding of the Milight iBox2 UDP client
(milight_ibox2/milight_ibox2_client.py and milight_ibox2/milight_ibox2_control.py;
where a definition is taken from, or holds of, only one of them, its doc
comment says which).

The datagram transport is modelled by lists of received datagrams: each receive
call consumes one entry of a response list, and an exhausted list reads as a
receive timeout.  The two variants differ on the timeout path: the client
variant returns an empty read from a timed out receive, so its retry loops
treat timeouts as retries, and for it an empty byte list in the response list
stands for a timeout; the control variant returns None from socket_recv on a
timeout, which the tuple unpacking at every call site turns into a TypeError,
so its send path is modelled separately with Option valued receive entries and
an Except result.  Frames are lists of natural numbers (byte values) and the
Python masks x &= 0xff are embedded as x &&& 0xff.
-/

namespace Milight

/-- Session state of one MilightIBox instance: the attributes set in
MilightIBox.init that the protocol logic reads and writes. -/
structure IBoxState where
  sock_open : Bool
  connected : Bool
  session_id1 : Int
  session_id2 : Int
  seq : Nat
  tx_retries : Nat
  ibox_ip : String
  ibox_port : Nat
  verbose : Bool
deriving Repr, DecidableEq

/-- The default state a fresh MilightIBox instance starts in. -/
def initState : IBoxState :=
  { sock_open := false, connected := false, session_id1 := -1, session_id2 := -1,
    seq := 0, tx_retries := 5, ibox_ip := "10.10.100.254", ibox_port := 5987,
    verbose := false }

/-- The socket opening helper: opens the UDP socket when not yet open and then
clears the connected flag; a no-op when the socket is already open. -/
def socket_open (s : IBoxState) : IBoxState :=
  if s.sock_open then s else { s with sock_open := true, connected := false }

/-- The socket closing helper: closes the socket and clears the connected flag. -/
def socket_close (s : IBoxState) : IBoxState :=
  { s with sock_open := false, connected := false }

/-- MilightIBox.disconnect: when connected, close the socket and clear the
connected flag (the source clears it a second time after the close); when not
connected, do nothing at all. -/
def disconnect (s : IBoxState) : IBoxState :=
  if s.connected then { socket_close s with connected := false } else s

/-- MilightIBox.is_connected. -/
def is_connected (s : IBoxState) : Bool :=
  s.connected

/-- The fixed session start request transmitted by every attempt of
MilightIBox.connect. -/
def cmd_start_session : List Nat :=
  [0x20, 0x00, 0x00, 0x00, 0x16, 0x02, 0x62, 0x3A,
   0xD5, 0xED, 0xA3, 0x01, 0xAE, 0x08, 0x2D, 0x46,
   0x61, 0x41, 0xA7, 0xF6, 0xDC, 0xAF, 0xD3, 0xE6,
   0x00, 0x00, 0x1E]

/-- The fixed 7 byte session start response header connect compares against.
A mismatch is only printed as an error: it does not stop the handshake from
being accepted. -/
def resp_start_session : List Nat :=
  [0x28, 0x00, 0x00, 0x00, 0x11, 0x00, 0x02]

/-- The retry loop of MilightIBox.connect, as in milight_ibox2_client.py.
Each iteration sends the session start frame and consumes one receive result.
A reply of any length other than 22 (a timeout reads as the empty list of
length 0) moves on to the next retry; in the control variant a timeout would
instead raise TypeError at the tuple unpacking, a path no claim here needs,
since for replies actually received the two variants behave alike.
The first reply of length exactly 22 is accepted: the source then prints an
error when the 7 byte header differs from resp_start_session but accepts the
session regardless, stores byte 19 and byte 20 as the session ids, resets the
sequence counter to 0 and returns at once.  The second component collects the
frames transmitted, one session start request per attempt. -/
def connectLoop : Nat → List (List Nat) → IBoxState → IBoxState × List (List Nat)
  | 0, _, s => (s, [])
  | n + 1, resps, s =>
    if (resps.headD []).length = 22 then
      ({ s with connected := true,
                session_id1 := (((resps.headD []).getD 19 0 : Nat) : Int),
                session_id2 := (((resps.headD []).getD 20 0 : Nat) : Int),
                seq := 0 }, [cmd_start_session])
    else
      ((connectLoop n resps.tail s).1,
        cmd_start_session :: (connectLoop n resps.tail s).2)

/-- MilightIBox.connect: optionally override the device ip and port, mark the
session fields invalid, open the socket, and run the handshake retry loop. -/
def connect (ip : Option String) (port : Option Nat) (resps : List (List Nat))
    (s : IBoxState) : IBoxState × List (List Nat) :=
  let s1 := { s with
    ibox_ip := ip.getD s.ibox_ip,
    ibox_port := port.getD s.ibox_port,
    connected := false, session_id1 := -1, session_id2 := -1 }
  connectLoop (socket_open s1).tx_retries resps (socket_open s1)

/-- The checksum computed by MilightIBox.send_command: add up all command
bytes, then mask with 0xff. -/
def command_checksum (light_command : List Nat) : Nat :=
  (light_command.foldl (· + ·) 0) &&& 0xff

/-- The 22 byte command frame built inside the retry loop of send_command:
a 10 byte header carrying the session ids and the current sequence counter,
then the 11 command bytes, then the checksum byte. -/
def build_command_frame (sid1 sid2 seq : Nat) (light_command : List Nat) : List Nat :=
  [0x80, 0x00, 0x00, 0x00, 0x11, sid1, sid2, 0x00, seq, 0x00]
    ++ light_command ++ [command_checksum light_command]

/-- The retry loop of MilightIBox.send_command of milight_ibox2_client.py,
whose receive returns an empty read on a timeout so that the loop retries.
Each iteration builds the frame with the current sequence counter, saves
that counter as send_seq,
increments the counter masked to a byte, transmits the frame and consumes one
receive result.  The loop stops early only on a reply of length exactly 8
whose first six bytes are the fixed ack header and whose seventh byte equals
send_seq, which is the sequence byte of the frame just sent.  Returns the
final sequence counter and the frames transmitted, in order. -/
def sendLoop (sid1 sid2 : Nat) (light_command : List Nat) :
    Nat → List (List Nat) → Nat → Nat × List (List Nat)
  | 0, _, seq => (seq, [])
  | n + 1, resps, seq =>
    if (resps.headD []).length = 8
        ∧ (resps.headD []).take 6 = [0x88, 0x00, 0x00, 0x00, 0x03, 0x00]
        ∧ (resps.headD []).getD 6 0 = seq then
      ((seq + 1) &&& 0xff, [build_command_frame sid1 sid2 seq light_command])
    else
      ((sendLoop sid1 sid2 light_command n resps.tail ((seq + 1) &&& 0xff)).1,
        build_command_frame sid1 sid2 seq light_command
          :: (sendLoop sid1 sid2 light_command n resps.tail ((seq + 1) &&& 0xff)).2)

/-- MilightIBox.send_command of milight_ibox2_client.py: reject a command
that is not exactly 11 bytes,
then reject when not connected (both cases only print and return, sending
nothing), otherwise run the retry loop with the stored session ids.  Returns
the new state and the frames transmitted. -/
def send_command (light_command : List Nat) (resps : List (List Nat))
    (s : IBoxState) : IBoxState × List (List Nat) :=
  if light_command.length ≠ 11 then (s, [])
  else if s.connected = false then (s, [])
  else
    ({ s with seq := (sendLoop s.session_id1.toNat s.session_id2.toNat light_command
                        s.tx_retries resps s.seq).1 },
      (sendLoop s.session_id1.toNat s.session_id2.toNat light_command
        s.tx_retries resps s.seq).2)

/-- The retry loop of MilightIBox.send_command of milight_ibox2_control.py.
That variant has socket_recv execute a bare return on a receive timeout, so
the tuple unpacking at the call site gets None and raises TypeError.  Receive
results are therefore Option valued here: some rx is a received datagram (an
empty one merely fails the ack check and the loop retries, as in the source),
none is a timeout, and an exhausted list reads as none.  Except.error models
the TypeError escaping the loop; both sides carry the sequence counter and
the frames transmitted so far, the counter having already been advanced for
the attempt whose receive crashed, since the source increments it before the
send. -/
def sendLoopCtrl (sid1 sid2 : Nat) (light_command : List Nat) :
    Nat → List (Option (List Nat)) → Nat →
      Except (Nat × List (List Nat)) (Nat × List (List Nat))
  | 0, _, seq => .ok (seq, [])
  | n + 1, resps, seq =>
    match resps.headD none with
    | none =>
      .error ((seq + 1) &&& 0xff, [build_command_frame sid1 sid2 seq light_command])
    | some rx =>
      if rx.length = 8 ∧ rx.take 6 = [0x88, 0x00, 0x00, 0x00, 0x03, 0x00]
          ∧ rx.getD 6 0 = seq then
        .ok ((seq + 1) &&& 0xff, [build_command_frame sid1 sid2 seq light_command])
      else
        match sendLoopCtrl sid1 sid2 light_command n resps.tail ((seq + 1) &&& 0xff) with
        | .ok r => .ok (r.1, build_command_frame sid1 sid2 seq light_command :: r.2)
        | .error r => .error (r.1, build_command_frame sid1 sid2 seq light_command :: r.2)

/-- MilightIBox.send_command of milight_ibox2_control.py: the same two guards
as the client variant, then the control retry loop; a receive timeout lets
the TypeError from the unpacking escape the call (Except.error), with the
state as mutated up to that point. -/
def send_command_ctrl (light_command : List Nat) (resps : List (Option (List Nat)))
    (s : IBoxState) : Except (IBoxState × List (List Nat)) (IBoxState × List (List Nat)) :=
  if light_command.length ≠ 11 then .ok (s, [])
  else if s.connected = false then .ok (s, [])
  else
    match sendLoopCtrl s.session_id1.toNat s.session_id2.toNat light_command
        s.tx_retries resps s.seq with
    | .ok r => .ok ({ s with seq := r.1 }, r.2)
    | .error r => .error ({ s with seq := r.1 }, r.2)

/-- MilightIBox.send_saturation of milight_ibox2_control.py, with the guards
exactly as in the source: both range checks test the zone argument.  The
first check, whose error message speaks about the saturation range 0..100,
never inspects the saturation argument.  The parameters are byte values (the
source feeds them straight into a bytearray); the source guards of the shape
zone less than 0 are vacuous over natural numbers and are dropped here. -/
def send_saturation (saturation zone lamp_type : Nat) (resps : List (List Nat))
    (s : IBoxState) : IBoxState × List (List Nat) :=
  if zone > 100 then (s, [])
  else if zone > 4 then (s, [])
  else
    send_command [0x31, 0x00, 0x00, lamp_type,
                  0x02, saturation, 0x00, 0x00, 0x00, zone, 0x00] resps s

/-- MilightIBox.send_color_temperature of milight_ibox2_control.py.  The
source computes int((t - 2700) / 38.0) with float division; on the guarded
range 2700..6500 the numerator is at most 3800 and the quotient is never
closer than 1/38 to a different integer, far beyond double rounding error,
so truncation of the float quotient agrees with natural number division by
38, which is what this embedding uses. -/
def send_color_temperature (color_temperature zone lamp_type : Nat)
    (resps : List (List Nat)) (s : IBoxState) : IBoxState × List (List Nat) :=
  if color_temperature < 2700 ∨ color_temperature > 6500 then (s, [])
  else
    send_command [0x31, 0x00, 0x00, lamp_type,
                  0x05, ((color_temperature - 2700) / 38) &&& 0xff,
                  0x00, 0x00, 0x00, zone, 0x00] resps s

/-- Modelled from the spec: the color temperature byte as the spec words it,
data1 = round((K - 2700) / ((6500 - 2700) / 100)) mod 256, with rounding to
the nearest integer (halves rounding up); written over naturals as
floor((2 (K - 2700) + 38) / 76).  Stated only to be compared against the
byte the source computes. -/
def spec_temperature_data1 (K : Nat) : Nat :=
  ((K - 2700) * 2 + 38) / 76 % 256

/-- One discovered device as accumulated by MilightIBox.scan; the MAC is kept
as its six raw bytes (the source renders them as a hex string, an injective
formatting, so equality of devices is unchanged). -/
structure Device where
  ip : String
  port : Nat
  mac : List Nat
deriving Repr, DecidableEq

/-- The receive loop of MilightIBox.scan.  Each entry of resps is one received
datagram together with its source address and source port; an empty datagram
is the receive timeout that ends the loop, and an exhausted list reads the
same way.  A reply passing the structural check (length 69, first byte 0x18)
whose embedded big endian port at bytes 49 and 50 differs from the source
port is handled by a verbose guarded block whose return statement sits inside
the guard: with verbose on, scan returns None on the spot; with verbose off,
nothing happens and the loop keeps receiving.  The value none models the
bare None return. -/
def scanLoop (verbose : Bool) : List (List Nat × String × Nat) → List Device →
    Option (List Device)
  | [], acc => some acc
  | (rx, addr, port) :: rest, acc =>
    if rx.length = 0 then some acc
    else if rx.length = 69 ∧ rx.getD 0 0 = 0x18 then
      if port ≠ (((rx.getD 49 0) <<< 8) ||| rx.getD 50 0) then
        if verbose then none else scanLoop verbose rest acc
      else if (⟨addr, port, (rx.drop 6).take 6⟩ : Device) ∈ acc then
        scanLoop verbose rest acc
      else
        scanLoop verbose rest (acc ++ [⟨addr, port, (rx.drop 6).take 6⟩])
    else scanLoop verbose rest acc

/-- MilightIBox.scan: open the socket, broadcast the discovery request once,
then run the receive loop starting from an empty device list. -/
def scan (resps : List (List Nat × String × Nat)) (s : IBoxState) :
    IBoxState × Option (List Device) :=
  (socket_open s, scanLoop s.verbose resps [])

/-- A well formed 69 byte discovery response: first byte 0x18, the MAC at
bytes 6 to 11 and the embedded port, big endian, at bytes 49 and 50. -/
def mkDiscoveryResp (mac : List Nat) (portHi portLo : Nat) : List Nat :=
  0x18 :: ([0, 0, 0, 0, 0] ++ mac ++ List.replicate 37 0
    ++ [portHi, portLo] ++ List.replicate 18 0)

/-- A discovery reply whose embedded port is 0x1763 = 5987. -/
def respGood1 : List Nat := mkDiscoveryResp [1, 2, 3, 4, 5, 6] 0x17 0x63

/-- A discovery reply whose embedded port is 0, never the real source port. -/
def respBad : List Nat := mkDiscoveryResp [9, 9, 9, 9, 9, 9] 0 0

/-- A second well formed discovery reply with embedded port 5987. -/
def respGood2 : List Nat := mkDiscoveryResp [7, 7, 7, 7, 7, 7] 0x17 0x63

/-- One public session mutating operation, for the reachability model: each
carries the datagrams the transport would deliver to its receive calls. -/
inductive Op where
  | connectOp (ip : Option String) (port : Option Nat) (resps : List (List Nat))
  | disconnectOp
  | sendCommandOp (light_command : List Nat) (resps : List (List Nat))

/-- The state transition of one operation. -/
def step (op : Op) (s : IBoxState) : IBoxState :=
  match op with
  | .connectOp ip port resps => (connect ip port resps s).1
  | .disconnectOp => disconnect s
  | .sendCommandOp c resps => (send_command c resps s).1

/-- The state reached from a fresh client instance by a list of operations. -/
def run (ops : List Op) : IBoxState :=
  ops.foldl (fun s op => step op s) initState

/-- A connected session, reached by one successful handshake whose reply is
22 bytes of 0x4D: connected, both session ids 0x4D, sequence 0, five retries. -/
def sampleConnected : IBoxState :=
  (connect none none [List.replicate 22 0x4D] initState).1

end Milight

namespace Milight

/-- The bitmask 0xff is the low byte, that is, the remainder mod 256. -/
theorem and_255_eq_mod (x : Nat) : x &&& 0xff = x % 256 :=
  Nat.and_pow_two_sub_one_eq_mod x 8

/-- The checksum of send_command is the byte sum of the command, mod 256. -/
theorem command_checksum_eq (c : List Nat) : command_checksum c = c.sum % 256 := by
  unfold command_checksum
  rw [← List.sum_eq_foldl, and_255_eq_mod]

/-- Opening the socket does not touch the configured retry count. -/
theorem socket_open_tx (s : IBoxState) : (socket_open s).tx_retries = s.tx_retries := by
  unfold socket_open
  split <;> rfl

/-- Opening the socket keeps a cleared connected flag cleared. -/
theorem socket_open_connected_false (s : IBoxState) (h : s.connected = false) :
    (socket_open s).connected = false := by
  unfold socket_open
  split
  · exact h
  · rfl

/-- The first frame the send retry loop transmits carries the starting
sequence counter. -/
theorem sendLoop_first_frame (sid1 sid2 : Nat) (c : List Nat) (n : Nat)
    (resps : List (List Nat)) (seq : Nat) :
    (sendLoop sid1 sid2 c (n + 1) resps seq).2.getD 0 []
      = build_command_frame sid1 sid2 seq c := by
  simp only [sendLoop]
  split <;> simp

/-- On a connected session with a valid payload and at least one retry, the
first frame send_command transmits is the command frame built from the stored
session ids and the current sequence counter. -/
theorem send_command_first_frame (c : List Nat) (resps : List (List Nat)) (s : IBoxState)
    (hconn : s.connected = true) (hlen : c.length = 11) (hretr : 0 < s.tx_retries) :
    (send_command c resps s).2.getD 0 []
      = build_command_frame s.session_id1.toNat s.session_id2.toNat s.seq c := by
  obtain ⟨m, hm⟩ : ∃ m, s.tx_retries = m + 1 := ⟨s.tx_retries - 1, by omega⟩
  unfold send_command
  rw [if_neg (by simp [hlen]), if_neg (by simp [hconn])]
  rw [hm]
  exact sendLoop_first_frame _ _ _ _ _ _

/-- Claim C2: on a connected session, the frame transmitted by send_command
for an 11 byte command is exactly the 10 byte header carrying the session ids
and sequence value, the 11 command bytes, and one trailing checksum byte equal
to the sum of the command bytes mod 256, 22 bytes in all; for an all zero
command body the checksum byte is 0x00. -/
theorem claim2_frame_layout (light_command : List Nat) (resps : List (List Nat))
    (s : IBoxState) (hconn : s.connected = true) (hlen : light_command.length = 11)
    (hretr : 0 < s.tx_retries) :
    (send_command light_command resps s).2.getD 0 []
        = [0x80, 0x00, 0x00, 0x00, 0x11, s.session_id1.toNat, s.session_id2.toNat,
           0x00, s.seq, 0x00] ++ light_command ++ [light_command.sum % 256]
    ∧ ((send_command light_command resps s).2.getD 0 []).length = 22
    ∧ command_checksum (List.replicate 11 0) = 0x00 := by
  rw [send_command_first_frame light_command resps s hconn hlen hretr]
  refine ⟨?_, ?_, by decide⟩
  · unfold build_command_frame
    rw [command_checksum_eq]
  · unfold build_command_frame
    simp [hlen]

/-- Claim C2 witness: the concrete frame for the all zero command on the
sample connected session (session ids 0x4D, sequence 0). -/
theorem claim2_witness :
    (send_command (List.replicate 11 0) [] sampleConnected).2.getD 0 []
        = [0x80, 0x00, 0x00, 0x00, 0x11, sampleConnected.session_id1.toNat,
           sampleConnected.session_id2.toNat, 0x00, sampleConnected.seq, 0x00]
            ++ List.replicate 11 0 ++ [(List.replicate 11 0).sum % 256]
    ∧ ((send_command (List.replicate 11 0) [] sampleConnected).2.getD 0 []).length = 22
    ∧ command_checksum (List.replicate 11 0) = 0x00 :=
  claim2_frame_layout (List.replicate 11 0) [] sampleConnected
    (by decide) (by decide) (by decide)

/-- Claim C10: send_command called with a payload that is not exactly 11
bytes returns at once: no frame is transmitted and the whole session state,
sequence counter, session ids and connected flag included, is unchanged. -/
theorem claim10_invalid_length (c : List Nat) (resps : List (List Nat)) (s : IBoxState)
    (hlen : c.length ≠ 11) :
    send_command c resps s = (s, []) := by
  unfold send_command
  rw [if_pos hlen]

/-- Claim C10 witness: a 3 byte payload on the connected sample session is
dropped without any transmission and without any state change. -/
theorem claim10_witness :
    (List.replicate 3 0).length ≠ 11
    ∧ send_command (List.replicate 3 0) [] sampleConnected = (sampleConnected, []) :=
  ⟨by decide, claim10_invalid_length (List.replicate 3 0) [] sampleConnected (by decide)⟩

/-- Claim C9: disconnect is idempotent.  Applying it twice gives the very
state one application gives, and on an already disconnected session it is a
no-op; being a total function it raises nothing. -/
theorem claim9_disconnect_idempotent (s : IBoxState) :
    disconnect (disconnect s) = disconnect s
    ∧ (s.connected = false → disconnect s = s) := by
  constructor
  · unfold disconnect socket_close
    by_cases h : s.connected <;> simp [h]
  · intro h
    unfold disconnect
    rw [h]
    simp

/-- Claim C9 witness: both parts at the fresh, disconnected initial state. -/
theorem claim9_witness :
    disconnect (disconnect initState) = disconnect initState
    ∧ disconnect initState = initState :=
  ⟨(claim9_disconnect_idempotent initState).1,
    (claim9_disconnect_idempotent initState).2 rfl⟩

/-- Claim C4 describes intent the code misses: send_saturation range-checks
the zone argument where its own error message speaks about the saturation
argument, so the out of range saturation value 150 on zone 1 is not rejected:
a frame is transmitted, with subcommand byte 0x02 and the raw value 150 as
data1 (bytes 14 and 15 of the frame). -/
theorem claim4_saturation_not_validated :
    (send_saturation 150 1 8 [] sampleConnected).2 ≠ []
    ∧ ((send_saturation 150 1 8 [] sampleConnected).2.getD 0 []).getD 14 0 = 0x02
    ∧ ((send_saturation 150 1 8 [] sampleConnected).2.getD 0 []).getD 15 0 = 150 := by
  decide

end Milight

namespace Milight

/-- In the send retry loop every iteration advances the sequence counter by
one, mod 256: the final counter is the starting counter plus the number of
frames transmitted, and the frame of attempt i carries sequence byte
(start + i) mod 256. -/
theorem sendLoop_seq_advance (sid1 sid2 : Nat) (c : List Nat) :
    ∀ (n : Nat) (resps : List (List Nat)) (seq : Nat), seq < 256 →
      (sendLoop sid1 sid2 c n resps seq).1
          = (seq + (sendLoop sid1 sid2 c n resps seq).2.length) % 256
      ∧ ∀ i < (sendLoop sid1 sid2 c n resps seq).2.length,
          ((sendLoop sid1 sid2 c n resps seq).2.getD i []).getD 8 0
            = (seq + i) % 256 := by
  intro n
  induction n with
  | zero =>
    intro resps seq h
    refine ⟨?_, ?_⟩
    · simp [sendLoop, Nat.mod_eq_of_lt h]
    · intro i hi
      simp [sendLoop] at hi
  | succ n ih =>
    intro resps seq h
    have hmask : (seq + 1) &&& 0xff = (seq + 1) % 256 := and_255_eq_mod (seq + 1)
    have hlt : (seq + 1) &&& 0xff < 256 := by omega
    have hframe : (build_command_frame sid1 sid2 seq c).getD 8 0 = seq := by
      simp [build_command_frame]
    simp only [sendLoop]
    split
    · refine ⟨?_, ?_⟩
      · simpa using by omega
      · intro i hi
        simp only [List.length_singleton] at hi
        have hi0 : i = 0 := by omega
        subst hi0
        simpa [hframe] using (Nat.mod_eq_of_lt h).symm
    · obtain ⟨ih1, ih2⟩ := ih resps.tail ((seq + 1) &&& 0xff) hlt
      refine ⟨?_, ?_⟩
      · simp only [List.length_cons]
        rw [ih1, hmask]
        omega
      · intro i hi
        cases i with
        | zero =>
          simpa [hframe] using (Nat.mod_eq_of_lt h).symm
        | succ i =>
          simp only [List.length_cons] at hi
          have hi2 : i < (sendLoop sid1 sid2 c n resps.tail ((seq + 1) &&& 0xff)).2.length := by
            omega
          simp only [List.getD_cons_succ]
          rw [ih2 i hi2, hmask]
          omega

/-- Claim C1 fails on the code: the source increments the sequence counter
inside the retry loop, once per transmission attempt, not once per call, and
the retransmitted frames carry distinct sequence values.  Concretely, on a
connected session with sequence 0, five retries and every receive timing out,
one send_command call leaves the counter at 5, not at (0 + 1) mod 256, and
the first two transmitted frames carry sequence bytes 0 and 1. -/
theorem claim1_counterexample :
    (send_command (List.replicate 11 0) [] sampleConnected).1.seq = 5
    ∧ (send_command (List.replicate 11 0) [] sampleConnected).1.seq ≠ (0 + 1) % 256
    ∧ ((send_command (List.replicate 11 0) [] sampleConnected).2.getD 0 []).getD 8 0 = 0
    ∧ ((send_command (List.replicate 11 0) [] sampleConnected).2.getD 1 []).getD 8 0 = 1 := by
  decide

/-- Claim C1 amended: one send_command call on a connected session increments
the sequence counter once per transmission attempt, mod 256: the final counter
is the starting counter plus the number of frames transmitted, and the frame
of attempt i carries sequence byte (start + i) mod 256, so retransmissions
within one call carry consecutive, not identical, sequence values. -/
theorem claim1_seq_per_attempt (c : List Nat) (resps : List (List Nat)) (s : IBoxState)
    (hconn : s.connected = true) (hlen : c.length = 11) (hseq : s.seq < 256) :
    (send_command c resps s).1.seq
        = (s.seq + (send_command c resps s).2.length) % 256
    ∧ ∀ i < (send_command c resps s).2.length,
        ((send_command c resps s).2.getD i []).getD 8 0 = (s.seq + i) % 256 := by
  have h := sendLoop_seq_advance s.session_id1.toNat s.session_id2.toNat c
    s.tx_retries resps s.seq hseq
  unfold send_command
  rw [if_neg (by simp [hlen]), if_neg (by simp [hconn])]
  exact h

/-- Claim C1 amended witness: the per-attempt law at the sample connected
session with an all zero command and every receive timing out. -/
theorem claim1_witness :
    (send_command (List.replicate 11 0) [] sampleConnected).1.seq
        = (sampleConnected.seq
            + (send_command (List.replicate 11 0) [] sampleConnected).2.length) % 256
    ∧ ∀ i < (send_command (List.replicate 11 0) [] sampleConnected).2.length,
        ((send_command (List.replicate 11 0) [] sampleConnected).2.getD i []).getD 8 0
          = (sampleConnected.seq + i) % 256 :=
  claim1_seq_per_attempt (List.replicate 11 0) [] sampleConnected
    (by decide) (by decide) (by decide)

/-- In the client variant, when every receive fails the ack check the send
retry loop transmits on every one of its n iterations. -/
theorem sendLoop_timeout_length (sid1 sid2 : Nat) (c : List Nat) :
    ∀ (n : Nat) (resps : List (List Nat)) (seq : Nat), (∀ r ∈ resps, r = []) →
      (sendLoop sid1 sid2 c n resps seq).2.length = n := by
  intro n
  induction n with
  | zero =>
    intro resps seq h
    rfl
  | succ n ih =>
    intro resps seq h
    have hhead : resps.headD [] = [] := by
      cases resps with
      | nil => rfl
      | cons a t => exact h a (List.mem_cons_self a t)
    have htail : ∀ r ∈ resps.tail, r = [] := by
      intro r hr
      cases resps with
      | nil => simp at hr
      | cons a t => exact h r (List.mem_cons_of_mem a hr)
    simp only [sendLoop, hhead]
    rw [if_neg (by simp)]
    simp [ih resps.tail _ htail]

/-- Claim C7 states the intent and milight_ibox2_client.py meets it, but
milight_ibox2_control.py breaks it: there socket_recv returns None on a
receive timeout and the tuple unpacking in send_command raises TypeError, so
on a connected session with a valid 11 byte payload and every receive timing
out that variant makes exactly one send attempt and raises, where the claim
wants exactly tx_retries attempts and a return without raising.  On the very
same input the client variant transmits exactly tx_retries = 5 frames, one
per retry, and returns normally. -/
theorem claim7_control_timeout_raises :
    send_command_ctrl (List.replicate 11 0) [] sampleConnected
        = Except.error ({ sampleConnected with seq := 1 },
            [build_command_frame 0x4D 0x4D 0 (List.replicate 11 0)])
    ∧ (send_command (List.replicate 11 0) [] sampleConnected).2.length
        = sampleConnected.tx_retries :=
  ⟨rfl, rfl⟩

/-- The connect retry loop stops at the first reply of length exactly 22:
if the replies before index k all have a different length and the reply at
index k has length 22, the loop accepts reply k, transmitting exactly k + 1
session start frames, and stores the session ids from bytes 19 and 20 of
reply k with the sequence counter reset to 0. -/
theorem connectLoop_stops_at_first_valid :
    ∀ (n : Nat) (resps : List (List Nat)) (s : IBoxState) (k : Nat),
      k < n →
      (∀ j < k, (resps.getD j []).length ≠ 22) →
      (resps.getD k []).length = 22 →
      connectLoop n resps s
        = ({ s with connected := true,
                    session_id1 := (((resps.getD k []).getD 19 0 : Nat) : Int),
                    session_id2 := (((resps.getD k []).getD 20 0 : Nat) : Int),
                    seq := 0 }, List.replicate (k + 1) cmd_start_session) := by
  intro n
  induction n with
  | zero =>
    intro resps s k hk hbefore hvalid
    omega
  | succ m ih =>
    intro resps s k hk hbefore hvalid
    cases resps with
    | nil =>
      simp at hvalid
    | cons a t =>
      cases k with
      | zero =>
        simp only [List.getD_cons_zero] at hvalid
        simp only [connectLoop, List.headD_cons, List.getD_cons_zero]
        rw [if_pos hvalid]
        rfl
      | succ j =>
        have ha : a.length ≠ 22 := by
          have := hbefore 0 (Nat.succ_pos j)
          simpa using this
        have hbefore2 : ∀ i < j, (t.getD i []).length ≠ 22 := by
          intro i hi
          have := hbefore (i + 1) (by omega)
          simpa using this
        have hvalid2 : (t.getD j []).length = 22 := by
          simpa using hvalid
        simp only [connectLoop, List.headD_cons, List.tail_cons]
        rw [if_neg ha]
        rw [ih t s j (by omega) hbefore2 hvalid2]
        simp [List.replicate_succ]

/-- Claim C3: connect stops at the first received reply whose length is 22
bytes, and this holds for every such reply, its 7 byte header matching the
expected acknowledgment header or not (the accepted reply is arbitrary here):
the session is reported connected, session id 1 is byte 19 and session id 2
is byte 20 of that reply, the sequence counter is 0, and exactly one session
start frame is transmitted per attempt up to and including the accepted one,
so no further retry attempt follows it. -/
theorem claim3_connect_first_valid (resps : List (List Nat)) (s : IBoxState) (k : Nat)
    (hk : k < s.tx_retries)
    (hbefore : ∀ j < k, (resps.getD j []).length ≠ 22)
    (hvalid : (resps.getD k []).length = 22) :
    is_connected (connect none none resps s).1 = true
    ∧ (connect none none resps s).1.session_id1
        = (((resps.getD k []).getD 19 0 : Nat) : Int)
    ∧ (connect none none resps s).1.session_id2
        = (((resps.getD k []).getD 20 0 : Nat) : Int)
    ∧ (connect none none resps s).1.seq = 0
    ∧ (connect none none resps s).2 = List.replicate (k + 1) cmd_start_session := by
  unfold connect
  simp only [socket_open_tx]
  rw [connectLoop_stops_at_first_valid s.tx_retries resps _ k hk hbefore hvalid]
  exact ⟨rfl, rfl, rfl, rfl, rfl⟩

/-- Claim C3 witness: the first scripted reply is 3 bytes (malformed), the
second is 22 bytes of 9, a frame that does not match the expected
acknowledgment header; connect retries once, accepts the second reply, ends
connected with both session ids 9 and sequence 0 after exactly two
transmissions. -/
theorem claim3_witness :
    is_connected (connect none none [[0, 0, 0], List.replicate 22 9] initState).1 = true
    ∧ (connect none none [[0, 0, 0], List.replicate 22 9] initState).1.session_id1
        = ((([[0, 0, 0], List.replicate 22 9].getD 1 []).getD 19 0 : Nat) : Int)
    ∧ (connect none none [[0, 0, 0], List.replicate 22 9] initState).1.session_id2
        = ((([[0, 0, 0], List.replicate 22 9].getD 1 []).getD 20 0 : Nat) : Int)
    ∧ (connect none none [[0, 0, 0], List.replicate 22 9] initState).1.seq = 0
    ∧ (connect none none [[0, 0, 0], List.replicate 22 9] initState).2
        = List.replicate 2 cmd_start_session :=
  claim3_connect_first_valid [[0, 0, 0], List.replicate 22 9] initState 1
    (by decide) (by decide) (by decide)

/-- The connect retry loop, entered with a cleared connected flag, reports
connected only when it stored the two session id bytes, which are nonnegative
as integers. -/
theorem connectLoop_ids (n : Nat) :
    ∀ (resps : List (List Nat)) (s : IBoxState), s.connected = false →
      (connectLoop n resps s).1.connected = true →
      0 ≤ (connectLoop n resps s).1.session_id1
      ∧ 0 ≤ (connectLoop n resps s).1.session_id2 := by
  induction n with
  | zero =>
    intro resps s hs hc
    simp only [connectLoop] at hc
    rw [hs] at hc
    cases hc
  | succ n ih =>
    intro resps s hs hc
    by_cases h : (resps.headD []).length = 22
    · simp only [connectLoop, if_pos h]
      exact ⟨Int.natCast_nonneg _, Int.natCast_nonneg _⟩
    · simp only [connectLoop, if_neg h] at hc ⊢
      exact ih resps.tail s hs hc

/-- send_command never changes the connected flag or the session ids, only
the sequence counter. -/
theorem send_command_fst_fields (c : List Nat) (resps : List (List Nat)) (s : IBoxState) :
    (send_command c resps s).1.connected = s.connected
    ∧ (send_command c resps s).1.session_id1 = s.session_id1
    ∧ (send_command c resps s).1.session_id2 = s.session_id2 := by
  unfold send_command
  split
  · exact ⟨rfl, rfl, rfl⟩
  · split
    · exact ⟨rfl, rfl, rfl⟩
    · exact ⟨rfl, rfl, rfl⟩

/-- Every single operation preserves the invariant that a connected state
holds nonnegative session ids. -/
theorem step_preserves_ids (op : Op) (s : IBoxState)
    (hs : s.connected = true → 0 ≤ s.session_id1 ∧ 0 ≤ s.session_id2) :
    (step op s).connected = true →
      0 ≤ (step op s).session_id1 ∧ 0 ≤ (step op s).session_id2 := by
  cases op with
  | connectOp ip port resps =>
    intro hc
    simp only [step, connect] at hc ⊢
    exact connectLoop_ids _ _ _ (socket_open_connected_false _ rfl) hc
  | disconnectOp =>
    intro hc
    simp only [step, disconnect] at hc ⊢
    by_cases h : s.connected
    · rw [if_pos h] at hc
      cases hc
    · rw [if_neg h] at hc ⊢
      exact hs hc
  | sendCommandOp c resps =>
    intro hc
    obtain ⟨h1, h2, h3⟩ := send_command_fst_fields c resps s
    simp only [step] at hc ⊢
    rw [h1] at hc
    rw [h2, h3]
    exact hs hc

/-- The invariant carries over any operation sequence by folding. -/
theorem foldl_preserves_ids (ops : List Op) :
    ∀ s : IBoxState, (s.connected = true → 0 ≤ s.session_id1 ∧ 0 ≤ s.session_id2) →
      ((ops.foldl (fun s op => step op s) s).connected = true →
        0 ≤ (ops.foldl (fun s op => step op s) s).session_id1
        ∧ 0 ≤ (ops.foldl (fun s op => step op s) s).session_id2) := by
  induction ops with
  | nil =>
    intro s hs
    simpa using hs
  | cons op rest ih =>
    intro s hs
    simp only [List.foldl_cons]
    exact ih (step op s) (step_preserves_ids op s hs)

/-- Claim C5 fails on the code: disconnect clears the connected flag but does
not invalidate the session ids.  After a successful handshake (reply 22 bytes
of 5) followed by disconnect, the state is reachable, not connected, and both
session ids are still nonnegative, where the claim wants them invalid. -/
theorem claim5_counterexample :
    (run [Op.connectOp none none [List.replicate 22 5], Op.disconnectOp]).connected = false
    ∧ 0 ≤ (run [Op.connectOp none none [List.replicate 22 5], Op.disconnectOp]).session_id1
    ∧ 0 ≤ (run [Op.connectOp none none [List.replicate 22 5], Op.disconnectOp]).session_id2 := by
  decide

/-- Claim C5 amended: in every state reachable by connect, disconnect and
send_command operations, a true connected flag guarantees both session ids
are nonnegative; the converse direction of the source claim does not hold,
since disconnect leaves stale session ids in place and they are reset to -1
only at the start of the next connect. -/
theorem claim5_ids_nonneg (ops : List Op) :
    (run ops).connected = true →
      0 ≤ (run ops).session_id1 ∧ 0 ≤ (run ops).session_id2 := by
  intro hc
  exact foldl_preserves_ids ops initState (by intro h; cases h) hc

/-- Claim C5 amended witness: the invariant at the reachable connected state
after one successful handshake. -/
theorem claim5_witness :
    (run [Op.connectOp none none [List.replicate 22 5]]).connected = true
    ∧ (0 ≤ (run [Op.connectOp none none [List.replicate 22 5]]).session_id1
        ∧ 0 ≤ (run [Op.connectOp none none [List.replicate 22 5]]).session_id2) :=
  ⟨by decide, claim5_ids_nonneg [Op.connectOp none none [List.replicate 22 5]] (by decide)⟩

/-- Claim C6 fails on the code: the source truncates the quotient where the
spec rounds it.  At 2757 K the exact quotient is 57 / 38 = 1.5: the frame
transmitted by the code carries data1 = 1 while the spec formula rounds to 2. -/
theorem claim6_counterexample :
    ((send_color_temperature 2757 1 8 [] sampleConnected).2.getD 0 []).getD 15 0 = 1
    ∧ spec_temperature_data1 2757 = 2
    ∧ ((send_color_temperature 2757 1 8 [] sampleConnected).2.getD 0 []).getD 15 0
        ≠ spec_temperature_data1 2757 := by
  decide

/-- Claim C6 amended: for every temperature K in 2700..6500 the transmitted
command carries subcommand byte 0x05 and data1 = (K - 2700) / 38 with the
quotient truncated, not rounded; the quotient never exceeds 100 = 0x64, so
the mask with 0xff never changes it, and the endpoints still give
data1 = 0x00 at 2700 K and data1 = 0x64 at 6500 K. -/
theorem claim6_truncated_encoding (K zone lamp_type : Nat) (resps : List (List Nat))
    (s : IBoxState) (hconn : s.connected = true) (hretr : 0 < s.tx_retries)
    (hlo : 2700 ≤ K) (hhi : K ≤ 6500) :
    ((send_color_temperature K zone lamp_type resps s).2.getD 0 []).getD 14 0 = 0x05
    ∧ ((send_color_temperature K zone lamp_type resps s).2.getD 0 []).getD 15 0
        = (K - 2700) / 38
    ∧ (K - 2700) / 38 ≤ 100 := by
  have hct : ((K - 2700) / 38) &&& 0xff = (K - 2700) / 38 := by
    rw [and_255_eq_mod]
    omega
  unfold send_color_temperature
  rw [if_neg (by omega)]
  rw [send_command_first_frame _ resps s hconn (by simp) hretr]
  refine ⟨?_, ?_, by omega⟩
  · simp [build_command_frame]
  · simp [build_command_frame, hct]

/-- Claim C6 amended witness: at the upper endpoint 6500 K the transmitted
data1 byte is (6500 - 2700) / 38 = 100 = 0x64. -/
theorem claim6_witness :
    ((send_color_temperature 6500 1 8 [] sampleConnected).2.getD 0 []).getD 14 0 = 0x05
    ∧ ((send_color_temperature 6500 1 8 [] sampleConnected).2.getD 0 []).getD 15 0
        = (6500 - 2700) / 38
    ∧ (6500 - 2700) / 38 ≤ 100 :=
  claim6_truncated_encoding 6500 1 8 [] sampleConnected
    (by decide) (by decide) (by decide) (by decide)

/-- Claim C8 describes intent the code misses on one path: the return that
should only log the port mismatch warning sits inside the verbose guard.
With verbose on, a discovery reply whose embedded port differs from the
datagram source port makes scan return None on the spot, discarding the
device already accumulated and never seeing the later valid reply.  With
verbose off (the default) the mismatched reply is skipped, the loop keeps
receiving, and scan returns both valid devices, which is the claimed
behavior. -/
theorem claim8_scan_port_mismatch :
    (scan [(respGood1, "10.0.0.1", 5987), (respBad, "10.0.0.2", 5987),
           (respGood2, "10.0.0.3", 5987)] { initState with verbose := true }).2 = none
    ∧ (scan [(respGood1, "10.0.0.1", 5987), (respBad, "10.0.0.2", 5987),
             (respGood2, "10.0.0.3", 5987)] initState).2
        = some [⟨"10.0.0.1", 5987, [1, 2, 3, 4, 5, 6]⟩,
                ⟨"10.0.0.3", 5987, [7, 7, 7, 7, 7, 7]⟩] := by
  decide

end Milight
